import Mathlib

/-!
Verification of the motor-string-cat-toy firmware control core (`src/main.rs`).

The embedding below translates the program's pure logic into Lean:
machine integers become `Nat` with explicit `% 2^w` wrapping where the Rust
code performs `u16`/`u32` arithmetic (release-mode wrapping semantics),
the generic `map_range` function is additionally embedded at unbounded
integers with truncating (`Int.tdiv`) division, stateful components
(motor driver, monitor history, parameter store) become explicit state
passing, and the scheduler's wait loop becomes a fuel-indexed function of
the elapsed-time and flag traces it observes.
-/

namespace CatToy

/-! ## Constants (main.rs lines 37-46) -/

def NUM_ADC_SAMPLES : Nat := 100

def MAX_ACTIVE_SEC : Nat := 10 * 60

def MIN_MOTOR_DUTY_PERCENT : Nat := 20

def MAX_MOTOR_DUTY_PERCENT : Nat := 100

def MIN_MOVEMENT_DURATION : Nat := 200

def MAX_MOVEMENT_DURATION : Nat := 2000

def POTENTIOMETER_READ_INTERVAL : Nat := 200

def MIN_ADC_VOLTAGE : Nat := 0

def MAX_ADC_VOLTAGE : Nat := 3000

/-! ## RangeMapper (main.rs lines 237-246)

`map_range` is generic over the integer type `T`.  We embed the algorithm
once at unbounded integers (`Int`, with Rust's truncating division), which
is the generic function instantiated at any width wide enough that no
intermediate value overflows, and once at the `u16` width at which the two
monitor tasks actually instantiate it (wrapping arithmetic). -/

def map_range (in_value in_min in_max out_min out_max : Int) : Int :=
  Int.tdiv ((in_value - in_min) * (out_max - out_min)) (in_max - in_min) + out_min

/-- The contract formula stated by the spec for the range mapper:
`(value - in_min) * (out_max - out_min) / (in_max - in_min) + out_min`
with truncating integer division. -/
def map_range_spec_formula (value in_min in_max out_min out_max : Int) : Int :=
  Int.tdiv ((value - in_min) * (out_max - out_min)) (in_max - in_min) + out_min

def U16_MOD : Nat := 65536

def U32_MOD : Nat := 4294967296

/-- Wrapping `u16` addition. -/
def add16 (a b : Nat) : Nat := (a + b) % U16_MOD

/-- Wrapping `u16` multiplication. -/
def mul16 (a b : Nat) : Nat := (a * b) % U16_MOD

/-- Wrapping `u16` subtraction (two's complement), for representatives `< 2^16`. -/
def sub16 (a b : Nat) : Nat := (a + (U16_MOD - b)) % U16_MOD

/-- `map_range` as instantiated at `T = u16` by both monitor tasks
(main.rs lines 176-182 and 217-223), with release-mode wrapping
arithmetic at each intermediate step. -/
def map_range_u16 (in_value in_min in_max out_min out_max : Nat) : Nat :=
  add16 (mul16 (sub16 in_value in_min) (sub16 out_max out_min) / sub16 in_max in_min)
    out_min

/-! ## PotentiometerMonitor sampling and mapping (main.rs lines 169-192, 210-231) -/

/-- `samples.map(|s| s as u32).sum::<u32>()`: the sampling burst's sum is
accumulated in `u32`, each addition wrapping mod `2^32`. -/
def sum_u32 (samples : List Nat) : Nat :=
  samples.foldl (fun acc s => (acc + s) % U32_MOD) 0

/-- The averaged reading: the `u32` sum divided (truncating) by
`NUM_ADC_SAMPLES`, then narrowed to `u16` by `try_into()`; `none` models the
`expect("Average of ADC readings is too large to fit into u16")` panic. -/
def averaged_reading (samples : List Nat) : Option Nat :=
  if sum_u32 samples / NUM_ADC_SAMPLES < U16_MOD then
    some (sum_u32 samples / NUM_ADC_SAMPLES)
  else none

/-- The speed monitor's mapping of an averaged reading
(main.rs lines 176-182): `[0,3000] -> [20,100]` at `u16`. -/
def monitor_speed_mapped (avg : Nat) : Nat :=
  map_range_u16 avg MIN_ADC_VOLTAGE MAX_ADC_VOLTAGE MIN_MOTOR_DUTY_PERCENT
    MAX_MOTOR_DUTY_PERCENT

/-- The duration monitor's mapping of an averaged reading
(main.rs lines 217-223): `[0,3000] -> [200,2000]` at `u16`. -/
def monitor_duration_mapped (avg : Nat) : Nat :=
  map_range_u16 avg MIN_ADC_VOLTAGE MAX_ADC_VOLTAGE MIN_MOVEMENT_DURATION
    MAX_MOVEMENT_DURATION

/-- Rust's unsigned `abs_diff`. -/
def abs_diff (a b : Nat) : Nat := if a ≤ b then b - a else a - b

/-- Per-monitor private state: the previous mapped value, paired with the
global drastic-change flag as this monitor's cycle updates it. -/
structure MonitorState where
  prev : Nat
  drastic : Bool
deriving DecidableEq

/-- One monitor cycle's flag-and-history update after computing the new
mapped value (main.rs lines 188-192 and 227-231): raise the flag when the
jump from the previous mapped value exceeds 10, then record the new value. -/
def monitor_cycle (st : MonitorState) (new_val : Nat) : MonitorState :=
  { prev := new_val
    drastic := if 10 < abs_diff st.prev new_val then true else st.drastic }

/-- Initial speed-monitor history (main.rs line 163). -/
def speed_monitor_init : MonitorState := ⟨MIN_MOTOR_DUTY_PERCENT, false⟩

/-- Initial duration-monitor history (main.rs line 204). -/
def duration_monitor_init : MonitorState := ⟨MIN_MOVEMENT_DURATION, false⟩

/-- A relaxed atomic cell: a read after a sequence of writes observes the
last write (or the initial value when there has been none). -/
def atomic_read (init : Nat) (writes : List Nat) : Nat :=
  writes.foldl (fun _ w => w) init

/-! ## MotorDriver (main.rs lines 255-327) -/

inductive MotorDirection
  | Forward
  | Reverse
deriving DecidableEq

/-- The motor driver's observable state: the duty values of its two PWM
channels (both configured to duty 0 in `Motor::new`, lines 284-303). -/
structure Motor where
  forward_duty : Nat
  reverse_duty : Nat
deriving DecidableEq

/-- `Motor::start_movement` (main.rs lines 311-322). -/
def Motor.start_movement (m : Motor) (direction : MotorDirection) (duty_percent : Nat) :
    Motor :=
  match direction with
  | MotorDirection.Forward => { m with forward_duty := duty_percent, reverse_duty := 0 }
  | MotorDirection.Reverse => { m with forward_duty := 0, reverse_duty := duty_percent }

/-- `Motor::stop` (main.rs lines 324-327). -/
def Motor.stop (_ : Motor) : Motor := ⟨0, 0⟩

inductive MotorOp
  | start_movement (direction : MotorDirection) (duty_percent : Nat)
  | stop
deriving DecidableEq

def Motor.apply_op (m : Motor) (op : MotorOp) : Motor :=
  match op with
  | MotorOp.start_movement d duty => m.start_movement d duty
  | MotorOp.stop => m.stop

/-- The motor state reached from the freshly configured driver (both
channels at duty 0) by a sequence of driver calls. -/
def Motor.run (ops : List MotorOp) : Motor :=
  ops.foldl Motor.apply_op ⟨0, 0⟩

/-! ## DeepSleepWatchdog (main.rs lines 248-253) -/

inductive WatchdogAction
  | waitSec (seconds : Nat)
  | deepSleep (wake_sources : List Nat)
deriving DecidableEq

/-- The watchdog task's action trace, in order: `Timer::after(600 s)` then
`sleep_deep(&[])`.  `deepSleep` is terminal: nothing follows it in the
trace, modelling that no further code of the session runs. -/
def deep_sleep_countdown : List WatchdogAction :=
  [WatchdogAction.waitSec MAX_ACTIVE_SEC, WatchdogAction.deepSleep []]

/-! ## MotionScheduler (main.rs lines 134-154) -/

/-- The scheduler's RNG seed (main.rs line 134: `SmallRng::seed_from_u64(1)`). -/
def smallrng_seed_value : Nat := 1

/-- The planned duration of a segment (main.rs line 146).  The value of
`CURRENT_MAX_MOVEMENT_DURATION` at segment start is passed as an argument
to exhibit that the body — the constant `2 * 1_000` of line 146 — never
reads it. -/
def segment_planned_duration_ms (_current_max_movement_duration : Nat) : Nat :=
  2 * 1000

/-- The scheduler's per-segment wait loop (main.rs lines 148-153), as a
function of the traces it observes: `elapsedAt k` is the elapsed time (ms)
since segment start at the k-th evaluation of the loop condition, and
`flagAt k` is the value of `DRASTIC_PARAMETER_CHANGE` read after the
(k+1)-th `ticker.next()`.  The result is the number of 200 ms ticks awaited
before the segment ends (`none` when the fuel runs out).  The loop
condition is the source's: `elapsed >= movement_duration` continues the
loop, anything less exits it. -/
def wait_loop (D : Nat) (elapsedAt : Nat → Nat) (flagAt : Nat → Bool) :
    Nat → Nat → Option Nat
  | _, 0 => none
  | k, fuel + 1 =>
    if D ≤ elapsedAt k then
      (if flagAt k then some (k + 1) else wait_loop D elapsedAt flagAt (k + 1) fuel)
    else some k

/-- The sequence of duty draws the scheduler makes (main.rs lines 141-143),
one per segment, as a function of the PRNG step function, the PRNG state,
and the sequence of `CURRENT_MAX_MOTOR_PERCENT` values read at each segment
start.  The PRNG (`rand::SmallRng`) is external to the repository, so its
step function is a parameter; the repository-level fact is that the draw
consumes only the PRNG state and the bound read from the store. -/
def scheduler_duties {σ : Type} (gen_step : σ → Nat → Nat → Nat × σ) :
    σ → List Nat → List Nat
  | _, [] => []
  | s, maxDuty :: rest =>
    let p := gen_step s MIN_MOTOR_DUTY_PERCENT maxDuty
    p.1 :: scheduler_duties gen_step p.2 rest

/-! ## Helper lemmas -/

/-- A wrapping `u32` fold equals the plain sum while the running total
stays below `2^32`. -/
theorem foldl_wrap_eq (samples : List Nat) :
    ∀ acc : Nat, acc + samples.sum < U32_MOD →
      samples.foldl (fun a s => (a + s) % U32_MOD) acc = acc + samples.sum := by
  induction samples with
  | nil => intro acc _; simp
  | cons x xs ih =>
    intro acc h
    simp only [List.sum_cons] at h
    simp only [List.foldl_cons]
    rw [Nat.mod_eq_of_lt (by omega), ih (acc + x) (by omega)]
    simp only [List.sum_cons]
    omega

theorem list_sum_le_len_mul (B : Nat) (samples : List Nat)
    (h : ∀ s ∈ samples, s ≤ B) : samples.sum ≤ samples.length * B := by
  induction samples with
  | nil => simp
  | cons x xs ih =>
    simp only [List.sum_cons, List.length_cons]
    have hx : x ≤ B := h x (List.mem_cons_self x xs)
    have hrest := ih (fun s hs => h s (List.mem_cons_of_mem x hs))
    calc x + xs.sum ≤ B + xs.length * B := by omega
    _ = (xs.length + 1) * B := by ring

theorem sum_u32_eq_sum (samples : List Nat) (h : samples.sum < U32_MOD) :
    sum_u32 samples = samples.sum := by
  have := foldl_wrap_eq samples 0 (by omega)
  simpa [sum_u32] using this

/-- Either driver call re-establishes channel mutual exclusion,
whatever the previous state. -/
theorem apply_op_excl (m : Motor) (op : MotorOp) :
    (m.apply_op op).forward_duty = 0 ∨ (m.apply_op op).reverse_duty = 0 := by
  cases op with
  | start_movement d duty => cases d <;> simp [Motor.apply_op, Motor.start_movement]
  | stop => simp [Motor.apply_op, Motor.stop]

theorem motor_foldl_excl (ops : List MotorOp) :
    ∀ m : Motor, m.forward_duty = 0 ∨ m.reverse_duty = 0 →
      (ops.foldl Motor.apply_op m).forward_duty = 0 ∨
      (ops.foldl Motor.apply_op m).reverse_duty = 0 := by
  induction ops with
  | nil => intro m h; simpa using h
  | cons op rest ih =>
    intro m _
    simp only [List.foldl_cons]
    exact ih _ (apply_op_excl m op)

/-- Whatever `u16` value the averaged reading takes, the speed monitor's
mapped output stays inside `[20, 100]` — the wrapped product is below
`2^16`, so dividing by 3000 leaves at most 21 to add to the range minimum. -/
theorem speed_mapped_bounds (avg : Nat) :
    MIN_MOTOR_DUTY_PERCENT ≤ monitor_speed_mapped avg ∧
    monitor_speed_mapped avg ≤ MAX_MOTOR_DUTY_PERCENT := by
  unfold monitor_speed_mapped map_range_u16 add16 mul16 sub16
  unfold MIN_ADC_VOLTAGE MAX_ADC_VOLTAGE MIN_MOTOR_DUTY_PERCENT MAX_MOTOR_DUTY_PERCENT
  unfold U16_MOD
  norm_num
  have h1 : avg * 80 % 65536 / 3000 ≤ 65535 / 3000 :=
    Nat.div_le_div_right (by omega)
  rw [Nat.mod_eq_of_lt (by omega)]
  omega

/-- Whatever `u16` value the averaged reading takes, the duration monitor's
mapped output stays inside `[200, 2000]`. -/
theorem duration_mapped_bounds (avg : Nat) :
    MIN_MOVEMENT_DURATION ≤ monitor_duration_mapped avg ∧
    monitor_duration_mapped avg ≤ MAX_MOVEMENT_DURATION := by
  unfold monitor_duration_mapped map_range_u16 add16 mul16 sub16
  unfold MIN_ADC_VOLTAGE MAX_ADC_VOLTAGE MIN_MOVEMENT_DURATION MAX_MOVEMENT_DURATION
  unfold U16_MOD
  norm_num
  have h1 : avg * 1800 % 65536 / 3000 ≤ 65535 / 3000 :=
    Nat.div_le_div_right (by omega)
  rw [Nat.mod_eq_of_lt (by omega)]
  omega

theorem atomic_read_in_range (lo hi : Nat) (writes : List Nat) :
    ∀ init : Nat, lo ≤ init → init ≤ hi → (∀ w ∈ writes, lo ≤ w ∧ w ≤ hi) →
      lo ≤ atomic_read init writes ∧ atomic_read init writes ≤ hi := by
  induction writes with
  | nil => intro init h1 h2 _; exact ⟨h1, h2⟩
  | cons w rest ih =>
    intro init h1 h2 hw
    have hwv := hw w (List.mem_cons_self w rest)
    simp only [atomic_read, List.foldl_cons]
    exact ih w hwv.1 hwv.2 (fun x hx => hw x (List.mem_cons_of_mem w hx))

/-! ## Claims -/

/-- C1: The claim says the wait loop polls on a 200 ms tick until the
planned duration elapses or the drastic-change flag is set.  The source's
loop condition (main.rs line 148) is `elapsed >= movement_duration`, the
reverse of that: evaluated here with planned duration 2000 ms, elapsed time
`200 * k` ms at the k-th condition check, the loop exits after zero ticks
whether the flag is never set or always set — the segment ends immediately
rather than at the planned duration or at the flag. -/
theorem C1_wait_loop_exits_immediately :
    wait_loop 2000 (fun k => 200 * k) (fun _ => false) 0 100 = some 0 ∧
    wait_loop 2000 (fun k => 200 * k) (fun _ => true) 0 100 = some 0 := by
  exact ⟨rfl, rfl⟩

/-- C2: The claim says the scheduler reads `max_movement_duration_ms` at
segment start and draws the segment duration uniformly from
`[200, max_movement_duration_ms]`.  The source (main.rs line 146) instead
fixes every segment's planned duration to the constant `2 * 1_000` ms and
never reads `CURRENT_MAX_MOVEMENT_DURATION`: with the store holding 500,
the planned duration 2000 still exceeds it. -/
theorem C2_planned_duration_fixed :
    (∀ maxDur : Nat, segment_planned_duration_ms maxDur = 2000) ∧
    segment_planned_duration_ms 500 = 2000 ∧
    500 < segment_planned_duration_ms 500 := by
  exact ⟨fun _ => rfl, rfl, by decide⟩

/-- C3: The range-mapping function computes exactly
`(value - in_min) * (out_max - out_min) / (in_max - in_min) + out_min`
with truncating integer division and no clamping of input or output:
`map(0,0,3000,20,100) = 20`, `map(3000,0,3000,20,100) = 100`,
`map(1500,0,3000,200,2000) = 1100`, and values outside `[in_min, in_max]`
extrapolate linearly past the output range (6000 maps to 180 > 100,
-1500 maps to -20 < 20). -/
theorem C3_map_range_contract :
    (∀ v a b c d : Int, map_range v a b c d = map_range_spec_formula v a b c d) ∧
    map_range 0 0 3000 20 100 = 20 ∧
    map_range 3000 0 3000 20 100 = 100 ∧
    map_range 1500 0 3000 200 2000 = 1100 ∧
    map_range 6000 0 3000 20 100 = 180 ∧
    map_range (-1500) 0 3000 20 100 = -20 := by
  exact ⟨fun _ _ _ _ _ => rfl, by decide, by decide, by decide, by decide, by decide⟩

/-- C4: The claim says the monitors' range-mapping computation is performed
at a width where no intermediate value overflows, so it equals the exact
formula.  Both monitors instantiate `map_range` at `u16`, where the product
`(value - in_min) * (out_max - out_min)` overflows: at averaged reading
1500 the speed map yields 38 instead of the exact 60, the duration map
yields 204 instead of the exact 1100, and even the in-range endpoint 3000
maps to 34 instead of 100 on the speed channel. -/
theorem C4_u16_map_overflows :
    monitor_speed_mapped 1500 = 38 ∧
    monitor_duration_mapped 1500 = 204 ∧
    monitor_speed_mapped 3000 = 34 ∧
    map_range 1500 0 3000 20 100 = 60 ∧
    map_range 1500 0 3000 200 2000 = 1100 ∧
    map_range 3000 0 3000 20 100 = 100 ∧
    ((monitor_speed_mapped 1500 : Int) < map_range 1500 0 3000 20 100) ∧
    ((monitor_duration_mapped 1500 : Int) < map_range 1500 0 3000 200 2000) := by
  refine ⟨by decide, by decide, by decide, by decide, by decide, by decide, ?_, ?_⟩ <;>
    decide

/-- C5: For every sequence of driver calls, at most one of the two PWM
channels is non-zero immediately after each call; `start_movement` sets the
channel matching the direction to the given duty and the opposite channel
to 0; both channels are simultaneously zero only via `stop` or a
`start_movement` with duty 0. -/
theorem C5_motor_mutual_exclusion :
    (∀ ops : List MotorOp,
      (Motor.run ops).forward_duty = 0 ∨ (Motor.run ops).reverse_duty = 0) ∧
    (∀ (m : Motor) (duty : Nat),
      (m.start_movement MotorDirection.Forward duty).forward_duty = duty ∧
      (m.start_movement MotorDirection.Forward duty).reverse_duty = 0) ∧
    (∀ (m : Motor) (duty : Nat),
      (m.start_movement MotorDirection.Reverse duty).reverse_duty = duty ∧
      (m.start_movement MotorDirection.Reverse duty).forward_duty = 0) ∧
    (∀ (m : Motor) (d : MotorDirection) (duty : Nat),
      (m.start_movement d duty).forward_duty = 0 →
      (m.start_movement d duty).reverse_duty = 0 → duty = 0) ∧
    (∀ m : Motor, (Motor.stop m).forward_duty = 0 ∧ (Motor.stop m).reverse_duty = 0) := by
  refine ⟨?_, fun m duty => ⟨rfl, rfl⟩, fun m duty => ⟨rfl, rfl⟩, ?_, fun m => ⟨rfl, rfl⟩⟩
  · intro ops
    exact motor_foldl_excl ops ⟨0, 0⟩ (Or.inl rfl)
  · intro m d duty h1 h2
    cases d with
    | Forward => exact h1
    | Reverse => exact h2

/-- Witness for C5: applied to the concrete driver state `⟨3, 4⟩` and a
forward start with duty 0, both channels are zero and the only-via-zero-duty
conclusion is discharged. -/
theorem C5_motor_mutual_exclusion_witness :
    (Motor.start_movement ⟨3, 4⟩ MotorDirection.Forward 0).forward_duty = 0 ∧
    (Motor.start_movement ⟨3, 4⟩ MotorDirection.Forward 0).reverse_duty = 0 ∧
    (0 : Nat) = 0 :=
  ⟨by decide, by decide,
    C5_motor_mutual_exclusion.2.2.2.1 ⟨3, 4⟩ MotorDirection.Forward 0 (by decide)
      (by decide)⟩

/-- C6: Given every raw sample in `[0, 3000]`, every value a monitor writes
to the parameter store lies within its field's static bounds
(`max_duty_percent` in `[20, 100]`, `max_movement_duration_ms` in
`[200, 2000]`), and a read of a store field after any sequence of in-range
writes (starting from the in-range initial value) never observes a value
outside the static range. -/
theorem C6_parameter_store_bounds :
    (∀ samples : List Nat, samples.length = NUM_ADC_SAMPLES →
      (∀ s ∈ samples, s ≤ MAX_ADC_VOLTAGE) →
      MIN_MOTOR_DUTY_PERCENT ≤ monitor_speed_mapped (sum_u32 samples / NUM_ADC_SAMPLES) ∧
      monitor_speed_mapped (sum_u32 samples / NUM_ADC_SAMPLES) ≤ MAX_MOTOR_DUTY_PERCENT ∧
      MIN_MOVEMENT_DURATION ≤
        monitor_duration_mapped (sum_u32 samples / NUM_ADC_SAMPLES) ∧
      monitor_duration_mapped (sum_u32 samples / NUM_ADC_SAMPLES) ≤
        MAX_MOVEMENT_DURATION) ∧
    (∀ (init lo hi : Nat) (writes : List Nat), lo ≤ init → init ≤ hi →
      (∀ w ∈ writes, lo ≤ w ∧ w ≤ hi) →
      lo ≤ atomic_read init writes ∧ atomic_read init writes ≤ hi) := by
  constructor
  · intro samples _ _
    obtain ⟨hs1, hs2⟩ := speed_mapped_bounds (sum_u32 samples / NUM_ADC_SAMPLES)
    obtain ⟨hd1, hd2⟩ := duration_mapped_bounds (sum_u32 samples / NUM_ADC_SAMPLES)
    exact ⟨hs1, hs2, hd1, hd2⟩
  · intro init lo hi writes h1 h2 hw
    exact atomic_read_in_range lo hi writes init h1 h2 hw

/-- Witness for C6: applied to 100 samples of 1500 mV and to a store write
sequence `[55]` inside `[20, 100]` starting from 20. -/
theorem C6_parameter_store_bounds_witness :
    ((List.replicate 100 1500).length = NUM_ADC_SAMPLES ∧
      (∀ s ∈ List.replicate 100 1500, s ≤ MAX_ADC_VOLTAGE) ∧
      MIN_MOTOR_DUTY_PERCENT ≤
        monitor_speed_mapped (sum_u32 (List.replicate 100 1500) / NUM_ADC_SAMPLES)) ∧
    ((20 : Nat) ≤ 20 ∧ (20 : Nat) ≤ 100 ∧ (∀ w ∈ [(55 : Nat)], 20 ≤ w ∧ w ≤ 100) ∧
      20 ≤ atomic_read 20 [55] ∧ atomic_read 20 [55] ≤ 100) :=
  ⟨⟨by decide, by decide,
      (C6_parameter_store_bounds.1 (List.replicate 100 1500) (by decide) (by decide)).1⟩,
    ⟨by decide, by decide, by decide,
      C6_parameter_store_bounds.2 20 20 100 [55] (by decide) (by decide) (by decide)⟩⟩

/-- C7: A monitor with previous mapped value `v0` raises the drastic-change
flag on new mapped value `v1` if and only if `|v1 - v0| > 10` (when no other
writer has raised it), it always records `v1` as the previous value for the
next cycle, and the previous values start at the static minima (20 for the
speed monitor, 200 for the duration monitor). -/
theorem C7_monitor_jump_detection :
    (∀ v0 v1 : Nat,
      ((monitor_cycle ⟨v0, false⟩ v1).drastic = true ↔ 10 < abs_diff v0 v1)) ∧
    (∀ (st : MonitorState) (v1 : Nat), (monitor_cycle st v1).prev = v1) ∧
    (∀ a b : Nat, abs_diff a b = ((b : Int) - (a : Int)).natAbs) ∧
    speed_monitor_init.prev = MIN_MOTOR_DUTY_PERCENT ∧
    duration_monitor_init.prev = MIN_MOVEMENT_DURATION := by
  refine ⟨?_, fun st v1 => rfl, ?_, rfl, rfl⟩
  · intro v0 v1
    by_cases h : 10 < abs_diff v0 v1 <;> simp [monitor_cycle, h]
  · intro a b
    unfold abs_diff
    split <;> omega

/-- C8: The watchdog task's trace is exactly one timer wait of
`MAX_ACTIVE_SEC = 600` seconds followed by a deep-sleep command with an
empty wake-source list, with nothing after it. -/
theorem C8_watchdog_one_shot :
    deep_sleep_countdown =
      [WatchdogAction.waitSec 600, WatchdogAction.deepSleep []] ∧
    MAX_ACTIVE_SEC = 600 := by
  exact ⟨rfl, rfl⟩

/-- C9: For every burst of 100 raw samples each representable in 16 bits,
the `u32` sum does not wrap, the truncating division by 100 fits in 16
bits, and the narrowing `try_into` therefore succeeds — the fatal
`Average of ADC readings is too large to fit into u16` branch is
unreachable. -/
theorem C9_average_narrowing_safe (samples : List Nat)
    (hlen : samples.length = NUM_ADC_SAMPLES)
    (hbound : ∀ s ∈ samples, s < U16_MOD) :
    samples.sum < U32_MOD ∧
    sum_u32 samples = samples.sum ∧
    sum_u32 samples / NUM_ADC_SAMPLES < U16_MOD ∧
    averaged_reading samples = some (sum_u32 samples / NUM_ADC_SAMPLES) := by
  have hsum : samples.sum ≤ 100 * 65535 := by
    have h1 := list_sum_le_len_mul 65535 samples
      (fun s hs => by have := hbound s hs; unfold U16_MOD at this; omega)
    rw [hlen] at h1
    unfold NUM_ADC_SAMPLES at h1
    omega
  have hlt : samples.sum < U32_MOD := by unfold U32_MOD; omega
  have heq : sum_u32 samples = samples.sum := sum_u32_eq_sum samples hlt
  have hdivle : samples.sum / 100 ≤ 100 * 65535 / 100 := Nat.div_le_div_right hsum
  have hfit : sum_u32 samples / NUM_ADC_SAMPLES < U16_MOD := by
    rw [heq]
    unfold NUM_ADC_SAMPLES U16_MOD
    omega
  refine ⟨hlt, heq, hfit, ?_⟩
  unfold averaged_reading
  rw [if_pos hfit]

/-- Witness for C9: 100 samples of 3000 mV average to 3000, which fits in
16 bits. -/
theorem C9_average_narrowing_safe_witness :
    (List.replicate 100 3000).length = NUM_ADC_SAMPLES ∧
    (∀ s ∈ List.replicate 100 3000, s < U16_MOD) ∧
    averaged_reading (List.replicate 100 3000) =
      some (sum_u32 (List.replicate 100 3000) / NUM_ADC_SAMPLES) :=
  ⟨by decide, by decide,
    (C9_average_narrowing_safe (List.replicate 100 3000) (by decide) (by decide)).2.2.2⟩

/-- C10: The scheduler's RNG is seeded with the fixed constant 1, and each
segment's duty draw consumes only the RNG state and the
`max_duty_percent` bound read at segment start, so for any PRNG step
function and seed expansion two runs observing the same sequence of bounds
produce identical duty sequences. -/
theorem C10_rng_fixed_seed_deterministic (σ : Type)
    (gen_step : σ → Nat → Nat → Nat × σ) (seed_from_u64 : Nat → σ)
    (bounds1 bounds2 : List Nat) (h : bounds1 = bounds2) :
    smallrng_seed_value = 1 ∧
    scheduler_duties gen_step (seed_from_u64 smallrng_seed_value) bounds1 =
      scheduler_duties gen_step (seed_from_u64 smallrng_seed_value) bounds2 :=
  ⟨rfl, by rw [h]⟩

/-- Witness for C10: a concrete PRNG step over state `Nat` run twice on the
bounds sequence `[80, 100]`. -/
theorem C10_rng_fixed_seed_deterministic_witness :
    [80, 100] = [(80 : Nat), 100] ∧
    (smallrng_seed_value = 1 ∧
      scheduler_duties (fun (s : Nat) (lo : Nat) (_ : Nat) => (lo, s + 1))
          (id smallrng_seed_value) [80, 100] =
        scheduler_duties (fun (s : Nat) (lo : Nat) (_ : Nat) => (lo, s + 1))
          (id smallrng_seed_value) [80, 100]) :=
  ⟨rfl,
    C10_rng_fixed_seed_deterministic Nat (fun s lo _ => (lo, s + 1)) id [80, 100]
      [80, 100] rfl⟩

end CatToy
